import Mathlib

/-!
Verification of the Dandolo Python SDK client core
(`dandolo/client.py`, `dandolo/types.py`, `dandolo/exceptions.py`),
shallowly embedded in Lean 4.

The dispatcher `Dandolo._request` is modelled as a pure function over a
"script" `Nat → Attempt` giving the transport outcome of each successive
attempt; its observable effects (number of transport attempts performed,
the sequence of back-off sleeps, and the returned value or raised
exception) are collected in a `ReqResult` record.  JSON values are a
small inductive; Python dicts are association lists with first-key
lookup, with `dict.update` / `d[k] = v` modelled by in-place replacement
or append, as CPython does while preserving insertion order.
-/

/-- JSON values as decoded by `response.json()`.  Numbers are modelled
as rationals (covering the ints and the decimal floats the SDK uses). -/
inductive Json where
  | null : Json
  | bool (b : Bool) : Json
  | num (q : Rat) : Json
  | str (s : String) : Json
  | arr (elems : List Json) : Json
  | obj (fields : List (String × Json)) : Json

/-- Python `d.get(k)` / `d[k]` on a dict modelled as an association list
with unique keys: the first binding of `k` wins. -/
def dictGet? (d : List (String × Json)) (k : String) : Option Json :=
  (d.find? (fun p => p.1 == k)).map Prod.snd

/-- Python `d[k] = v`: replace the value in place when the key is
present (CPython keeps the original insertion position), else append. -/
def dictInsert (d : List (String × Json)) (k : String) (v : Json) :
    List (String × Json) :=
  if d.any (fun p => p.1 == k) then
    d.map (fun p => if p.1 == k then (k, v) else p)
  else
    d ++ [(k, v)]

/-- Python `d.update(kvs)`: successive `d[k] = v` for each pair. -/
def dictUpdate (d kvs : List (String × Json)) : List (String × Json) :=
  kvs.foldl (fun acc p => dictInsert acc p.1 p.2) d

/-- Python `response.headers.get(k)` (header maps, string valued). -/
def headersGet? (hs : List (String × String)) (k : String) : Option String :=
  (hs.find? (fun p => p.1 == k)).map Prod.snd

/-- Python `s.upper()` (ASCII letters, the only case the SDK exercises). -/
def pyUpper (s : String) : String :=
  ⟨s.data.map Char.toUpper⟩

/-- Python `s.startswith(p)`, at the character-list level. -/
def pyStartsWith (s p : String) : Bool :=
  p.data.isPrefixOf s.data

/-- Helper for the Python substring test: does `sub` occur in the
character list? -/
def containsSubAux (sub : List Char) : List Char → Bool
  | [] => sub.isEmpty
  | c :: rest => sub.isPrefixOf (c :: rest) || containsSubAux sub rest

/-- Python `sub in s` substring test on strings. -/
def containsSubstr (s sub : String) : Bool :=
  containsSubAux sub.data s.data

/-- The exception taxonomy of `dandolo/exceptions.py`: `DandoloError`
(base, carrying `message` and optional `code`) and its subclasses, each
of which fixes the code string in its `__init__`. -/
inductive DandoloExc where
  | base (message : String) (code : Option String)
  | authentication (message : String)
  | rateLimit (message : String) (retry_after : Option String)
  | modelNotFound (message : String)
  | validation (message : String)

/-- The `DandoloError.message` attribute as set by the constructor chain. -/
def DandoloExc.message : DandoloExc → String
  | .base m _ => m
  | .authentication m => m
  | .rateLimit m _ => m
  | .modelNotFound m => m
  | .validation m => m

/-- The `DandoloError.code` attribute as set by the constructor chain
(each subclass passes a fixed code string to `super().__init__`). -/
def DandoloExc.code : DandoloExc → Option String
  | .base _ c => c
  | .authentication _ => some "authentication_error"
  | .rateLimit _ _ => some "rate_limit_error"
  | .modelNotFound _ => some "model_not_found"
  | .validation _ => some "validation_error"

/-- Exceptions the client code can raise: the Dandolo taxonomy plus the
Python built-ins it uses (`ValueError` for programming errors,
`TypeError`/`AttributeError` from dynamic operations, and the JSON
decode error `response.json()` raises on an unparseable body). -/
inductive PyError where
  | valueError (msg : String)
  | typeError (msg : String)
  | attributeError (msg : String)
  | jsonDecodeError
  | dandoloError (e : DandoloExc)

/-- Whether a raised exception is an instance of the taxonomy's base
class `DandoloError` (Python `isinstance(e, DandoloError)`). -/
def PyError.isDandoloError : PyError → Bool
  | .dandoloError _ => true
  | _ => false

/-- An HTTP response as seen through `requests`: status code, header
map, and body (`none` models empty `response.content`; `some j` a body
that parses to the JSON value `j`). -/
structure HttpResponse where
  status : Nat
  headers : List (String × String)
  body : Option Json

/-- Outcome of one transport attempt: a response, or one of the two
transport exceptions the dispatcher catches. -/
inductive Attempt where
  | resp (r : HttpResponse)
  | timeout
  | connError

/-- Client configuration fixed by `Dandolo.__init__` (immutable after
construction).  `retry_delay` is a rational standing for the Python
float (the SDK only ever multiplies it by powers of two). -/
structure Config where
  api_key : String
  base_url : String
  timeout : Nat
  max_retries : Nat
  retry_delay : Rat

/-- Observable outcome of one `_request` call: returned JSON or raised
exception, the number of transport attempts performed, and the
durations passed to `time.sleep` in order. -/
structure ReqResult where
  result : Except PyError Json
  attemptsMade : Nat
  sleeps : List Rat

/-- Evaluates `error_data.get("error", {}).get("message", default)` on
`error_data = response.json() if response.content else {}`:
the defensive extraction of a server error message. -/
def errorMessage (body : Option Json) (default : String) : String :=
  match body with
  | some (Json.obj fields) =>
    match dictGet? fields "error" with
    | some (Json.obj efields) =>
      match dictGet? efields "message" with
      | some (Json.str s) => s
      | _ => default
    | _ => default
  | _ => default

/-- The body of the `for attempt in range(self.max_retries + 1)` loop of
`Dandolo._request`, as structural recursion on the remaining number of
iterations (`fuel`); `k` is the current value of `attempt`, and
`fuel = max_retries + 1 - k` throughout, so `fuel = 1` exactly when
`attempt < self.max_retries` is false.  Falling out of the loop
(`fuel = 0`) raises `DandoloError("Max retries exceeded")`, the dead
line after the Python loop. -/
def requestGo (cfg : Config) (method endpoint : String)
    (script : Nat → Attempt) :
    Nat → Nat → List Rat → ReqResult
  | 0, k, sleeps =>
    ⟨.error (.dandoloError (.base "Max retries exceeded" none)), k, sleeps⟩
  | fuel + 1, k, sleeps =>
    if pyUpper method = "GET" ∨ pyUpper method = "POST" then
      match script k with
      | .resp r =>
        if r.status = 200 then
          match r.body with
          | some j => ⟨.ok j, k + 1, sleeps⟩
          | none => ⟨.error .jsonDecodeError, k + 1, sleeps⟩
        else if r.status = 401 then
          ⟨.error (.dandoloError (.authentication "Invalid API key")), k + 1, sleeps⟩
        else if r.status = 429 then
          ⟨.error (.dandoloError (.rateLimit
              (errorMessage r.body "Rate limit exceeded")
              (headersGet? r.headers "Retry-After"))), k + 1, sleeps⟩
        else if r.status = 404 then
          if containsSubstr endpoint "model" then
            ⟨.error (.dandoloError (.modelNotFound "Specified model not found")), k + 1, sleeps⟩
          else
            ⟨.error (.dandoloError (.base ("Endpoint not found: " ++ endpoint) none)), k + 1, sleeps⟩
        else if r.status = 400 then
          ⟨.error (.dandoloError (.validation
              (errorMessage r.body "Invalid request"))), k + 1, sleeps⟩
        else if 500 ≤ r.status then
          if 0 < fuel then
            requestGo cfg method endpoint script fuel (k + 1)
              (sleeps ++ [cfg.retry_delay * 2 ^ k])
          else
            ⟨.error (.dandoloError (.base ("Server error: " ++ toString r.status) none)), k + 1, sleeps⟩
        else
          ⟨.error (.dandoloError (.base
              (errorMessage r.body ("Unknown error: " ++ toString r.status)) none)), k + 1, sleeps⟩
      | .timeout =>
        if 0 < fuel then
          requestGo cfg method endpoint script fuel (k + 1)
            (sleeps ++ [cfg.retry_delay * 2 ^ k])
        else
          ⟨.error (.dandoloError (.base "Request timeout" none)), k + 1, sleeps⟩
      | .connError =>
        if 0 < fuel then
          requestGo cfg method endpoint script fuel (k + 1)
            (sleeps ++ [cfg.retry_delay * 2 ^ k])
        else
          ⟨.error (.dandoloError (.base "Connection error" none)), k + 1, sleeps⟩
    else
      ⟨.error (.valueError ("Unsupported HTTP method: " ++ method)), k, sleeps⟩

/-- Model of `Dandolo._request(method, endpoint, data)`: run the retry loop with
the full budget of `max_retries + 1` iterations.  The request body
`_data` only shapes the wire payload; the transport's behaviour is
abstracted by `script`, so the body does not influence the
classification of outcomes. -/
def dandoloRequest (cfg : Config) (method endpoint : String)
    (_data : Option (List (String × Json))) (script : Nat → Attempt) :
    ReqResult :=
  requestGo cfg method endpoint script (cfg.max_retries + 1) 0 []

/-- The dataclasses of `dandolo/types.py` relevant to chat completions.
Python dataclasses do not enforce field types, so fields hold arbitrary
JSON values here; these records are what `types.py` would build, and
`chatCompletionsCreate` below demonstrably never builds one. -/
structure ChatMessage where
  role : Json
  content : Json
  name : Json

structure Choice where
  index : Json
  message : ChatMessage
  finish_reason : Json

structure ChatCompletion where
  id : Json
  object : Json
  created : Json
  model : Json
  choices : List Choice
  usage : Json

/-- The request body assembled by `ChatCompletions.create`:
`data = {"model": …, "messages": …, "stream": …}`, then
`data["max_tokens"]`/`data["temperature"]` when given, then
`data.update(kwargs)`. -/
def createBody (model : String) (messages : Json) (max_tokens : Option Int)
    (temperature : Option Rat) (stream : Bool)
    (kwargs : List (String × Json)) : List (String × Json) :=
  let data : List (String × Json) :=
    [("model", Json.str model), ("messages", messages), ("stream", Json.bool stream)]
  let data := match max_tokens with
    | some n => dictInsert data "max_tokens" (Json.num (n : Rat))
    | none => data
  let data := match temperature with
    | some t => dictInsert data "temperature" (Json.num t)
    | none => data
  dictUpdate data kwargs

/-- The required fields of the body (`model`, `messages`, `stream`, and
the optional `max_tokens`/`temperature` when given), before the
`data.update(kwargs)` merge. -/
def requiredBody (model : String) (messages : Json) (max_tokens : Option Int)
    (temperature : Option Rat) (stream : Bool) : List (String × Json) :=
  createBody model messages max_tokens temperature stream []

/-- Model of `ChatCompletions.create`: assembles the body and returns
`self.client._request("POST", "/v1/chat/completions", data)` — the
dispatcher's parsed JSON as-is; no `ChatCompletion` is constructed. -/
def chatCompletionsCreate (cfg : Config) (messages : Json) (model : String)
    (max_tokens : Option Int) (temperature : Option Rat) (stream : Bool)
    (kwargs : List (String × Json)) (script : Nat → Attempt) : ReqResult :=
  dandoloRequest cfg "POST" "/v1/chat/completions"
    (some (createBody model messages max_tokens temperature stream kwargs)) script

/-- The `Model` dataclass of `types.py`; fields hold JSON values since
Python dataclasses do not enforce their annotations. -/
structure ModelRec where
  id : Json
  object : Json
  created : Json
  owned_by : Json
  type : Json
  context_length : Json

/-- The keyword parameters `Model.__init__` accepts. -/
def allowedModelKeys : List String :=
  ["id", "object", "created", "owned_by", "type", "context_length"]

/-- The constructor call `Model(**m)` for a decoded JSON element `m`: requires a mapping
whose keys are among the dataclass fields with `id` present; `created`
missing (or null) is replaced by the current time in `__post_init__`;
other missing optionals take their declared defaults. -/
def modelOfJson (now : Int) (j : Json) : Except PyError ModelRec :=
  match j with
  | .obj fields =>
    if fields.all (fun p => allowedModelKeys.contains p.1) then
      match dictGet? fields "id" with
      | some idv =>
        .ok { id := idv
              object := (dictGet? fields "object").getD (Json.str "model")
              created := match (dictGet? fields "created").getD Json.null with
                | Json.null => Json.num (now : Rat)
                | v => v
              owned_by := (dictGet? fields "owned_by").getD (Json.str "dandolo")
              type := (dictGet? fields "type").getD Json.null
              context_length := (dictGet? fields "context_length").getD Json.null }
      | none =>
        .error (.typeError "missing 1 required positional argument: id")
    else
      .error (.typeError "unexpected keyword argument")
  | _ => .error (.typeError "argument after ** must be a mapping")

/-- The list comprehension `[Model(**model) for model in …]`: build left
to right, raising the first constructor error. -/
def mapE {α β : Type} (f : α → Except PyError β) :
    List α → Except PyError (List β)
  | [] => .ok []
  | a :: as =>
    match f a with
    | .error e => .error e
    | .ok b =>
      match mapE f as with
      | .error e => .error e
      | .ok bs => .ok (b :: bs)

/-- Model of `Models.list`: GET `/v1/models`, then
`[Model(**model) for model in response.get("data", [])]`.
A non-mapping response or a non-list `data` value raises one of
Python's dynamic-typing errors (collapsed to a single representative
here; no claim concerns those inputs). -/
def modelsList (cfg : Config) (now : Int) (script : Nat → Attempt) :
    Except PyError (List ModelRec) :=
  match (dandoloRequest cfg "GET" "/v1/models" none script).result with
  | .error e => .error e
  | .ok response =>
    match response with
    | .obj fields =>
      match (dictGet? fields "data").getD (Json.arr []) with
      | .arr elems => mapE (modelOfJson now) elems
      | _ => .error (.typeError "argument after ** must be a mapping")
    | _ => .error (.attributeError "object has no attribute get")

/-- Python `base_url.rstrip("/")`. -/
def rstripSlashes (s : String) : String :=
  ⟨(s.data.reverse.dropWhile (fun c => c == '/')).reverse⟩

/-- Model of `Dandolo.__init__`: rejects a missing/empty key (`if not api_key`)
and a key with neither recognised prefix, both with `ValueError`, before
any other work; otherwise records the configuration.  The model takes
no transport script: construction performs no network call (the session
setup in the source is purely local). -/
def dandoloInit (api_key : Option String) (base_url : String)
    (timeout : Nat) (max_retries : Nat) (retry_delay : Rat) :
    Except PyError Config :=
  match api_key with
  | none => .error (.valueError "API key is required")
  | some k =>
    if k = "" then
      .error (.valueError "API key is required")
    else if pyStartsWith k "dk_" || pyStartsWith k "ak_" then
      .ok ⟨k, rstripSlashes base_url, timeout, max_retries, retry_delay⟩
    else
      .error (.valueError "API key must start with 'dk_' (developer) or 'ak_' (agent)")

/-- The dictionary `Dandolo.validate_key` returns. -/
structure KeyReport where
  is_valid : Bool
  key_type : Option String
  daily_usage : Option Nat
  daily_limit : Option Nat
  remaining : Option Nat
deriving DecidableEq

/-- Model of `Dandolo.validate_key`: attempt `GET /v1/models`; on success derive
`key_type` from the key's prefix and fill in the placeholder usage
numbers; on any `DandoloError` return the all-null invalid report.
Other exceptions (not caught by `except DandoloError`) propagate. -/
def validate_key (cfg : Config) (script : Nat → Attempt) :
    Except PyError KeyReport :=
  match (dandoloRequest cfg "GET" "/v1/models" none script).result with
  | .ok _ =>
    let key_type : String :=
      if pyStartsWith cfg.api_key "ak_" then "agent" else "developer"
    let daily_limit : Nat := if key_type = "agent" then 5000 else 500
    .ok ⟨true, some key_type, some 0, some daily_limit, some daily_limit⟩
  | .error (.dandoloError _) => .ok ⟨false, none, none, none, none⟩
  | .error e => .error e

/-- A concrete client configuration for witnesses: an agent key, the
default base URL, timeout 60, `max_retries = 3`, `retry_delay = 1.0`. -/
def cfg0 : Config := ⟨"ak_demo", "https://api.dandolo.ai", 60, 3, 1⟩

/-- The 200-body of the spec's scenario: one choice whose message
content is "hi", id "x". -/
def scenario200 : Json :=
  Json.obj
    [("choices", Json.arr [Json.obj
        [("index", Json.num 0),
         ("message", Json.obj
            [("role", Json.str "assistant"), ("content", Json.str "hi")])]]),
     ("id", Json.str "x")]

/-- A concrete model-listing 200 body for witnesses: two models. -/
def modelsFields : List (String × Json) :=
  [("data", Json.arr
      [Json.obj [("id", Json.str "llama-70b")],
       Json.obj [("id", Json.str "qwen-72b"), ("context_length", Json.num 32768)]]),
   ("object", Json.str "list")]

/-- One loop iteration on a 5xx response with budget remaining: sleep
`retry_delay * 2 ^ attempt` and continue. -/
lemma requestGo_step_retry (cfg : Config) (method endpoint : String)
    (script : Nat → Attempt) (fuel k : Nat) (sleeps : List Rat)
    (s : Nat) (headers : List (String × String)) (body : Option Json)
    (hm : pyUpper method = "GET" ∨ pyUpper method = "POST")
    (h5 : 500 ≤ s)
    (hs : script k = .resp ⟨s, headers, body⟩) (hfuel : 0 < fuel) :
    requestGo cfg method endpoint script (fuel + 1) k sleeps
      = requestGo cfg method endpoint script fuel (k + 1)
          (sleeps ++ [cfg.retry_delay * 2 ^ k]) := by
  have h200 : ¬ s = 200 := by omega
  have h401 : ¬ s = 401 := by omega
  have h429 : ¬ s = 429 := by omega
  have h404 : ¬ s = 404 := by omega
  have h400 : ¬ s = 400 := by omega
  simp [requestGo, hs, hm, h200, h401, h429, h404, h400, h5, hfuel]

/-- The final loop iteration on a 5xx response: raise the terminal
server error. -/
lemma requestGo_last_5xx (cfg : Config) (method endpoint : String)
    (script : Nat → Attempt) (k : Nat) (sleeps : List Rat)
    (s : Nat) (headers : List (String × String)) (body : Option Json)
    (hm : pyUpper method = "GET" ∨ pyUpper method = "POST")
    (h5 : 500 ≤ s)
    (hs : script k = .resp ⟨s, headers, body⟩) :
    requestGo cfg method endpoint script 1 k sleeps
      = ⟨.error (.dandoloError (.base ("Server error: " ++ toString s) none)),
         k + 1, sleeps⟩ := by
  have h200 : ¬ s = 200 := by omega
  have h401 : ¬ s = 401 := by omega
  have h429 : ¬ s = 429 := by omega
  have h404 : ¬ s = 404 := by omega
  have h400 : ¬ s = 400 := by omega
  show requestGo cfg method endpoint script (0 + 1) k sleeps = _
  simp [requestGo, hs, hm, h200, h401, h429, h404, h400, h5]

/-- Running the loop against a transport that answers 5xx on every
attempt: all iterations retry (sleeping `retry_delay * 2 ^ i` for the
successive attempt indices) until the budget is spent. -/
lemma requestGo_5xx_all (cfg : Config) (method endpoint : String)
    (s : Nat) (hdrs : Nat → List (String × String)) (bodies : Nat → Option Json)
    (hm : pyUpper method = "GET" ∨ pyUpper method = "POST")
    (h5 : 500 ≤ s) :
    ∀ fuel k sleeps,
      requestGo cfg method endpoint (fun i => .resp ⟨s, hdrs i, bodies i⟩)
          (fuel + 1) k sleeps
        = ⟨.error (.dandoloError (.base ("Server error: " ++ toString s) none)),
           k + fuel + 1,
           sleeps ++ (List.range' k fuel).map (fun i => cfg.retry_delay * 2 ^ i)⟩ := by
  intro fuel
  induction fuel with
  | zero =>
    intro k sleeps
    rw [requestGo_last_5xx cfg method endpoint _ k sleeps s (hdrs k) (bodies k) hm h5 rfl]
    simp
  | succ n ih =>
    intro k sleeps
    rw [requestGo_step_retry cfg method endpoint _ (n + 1) k sleeps s (hdrs k)
        (bodies k) hm h5 rfl (by omega)]
    rw [ih (k + 1) (sleeps ++ [cfg.retry_delay * 2 ^ k])]
    simp [List.range'_succ]
    omega

/-- Running the loop against a transport that answers 5xx for `m`
attempts and then 200: the 200 payload is returned after `m` back-off
sleeps, provided the budget allows attempt `m`. -/
lemma requestGo_200_after (cfg : Config) (method endpoint : String)
    (script : Nat → Attempt) (s : Nat)
    (hm : pyUpper method = "GET" ∨ pyUpper method = "POST")
    (h5 : 500 ≤ s) :
    ∀ (m fuel k : Nat) (sleeps : List Rat), m < fuel →
      (∀ i, i < m → ∃ hs b, script (k + i) = .resp ⟨s, hs, b⟩) →
      (∀ h2 j, script (k + m) = .resp ⟨200, h2, some j⟩ →
        requestGo cfg method endpoint script fuel k sleeps
          = ⟨.ok j, k + m + 1,
             sleeps ++ (List.range' k m).map (fun i => cfg.retry_delay * 2 ^ i)⟩) := by
  intro m
  induction m with
  | zero =>
    intro fuel k sleeps hlt _ h2 j hj
    obtain ⟨f, rfl⟩ : ∃ f, fuel = f + 1 := ⟨fuel - 1, by omega⟩
    have hj0 : script k = .resp ⟨200, h2, some j⟩ := by simpa using hj
    simp [requestGo, hj0, hm]
  | succ n ih =>
    intro fuel k sleeps hlt hpre h2 j hj
    obtain ⟨f, rfl⟩ : ∃ f, fuel = f + 1 := ⟨fuel - 1, by omega⟩
    obtain ⟨hs0, b0, hk⟩ := hpre 0 (by omega)
    rw [requestGo_step_retry cfg method endpoint script f k sleeps s hs0 b0 hm h5
        (by simpa using hk) (by omega)]
    have hrec := ih f (k + 1) (sleeps ++ [cfg.retry_delay * 2 ^ k]) (by omega)
      (fun i hi => by
        obtain ⟨hsi, bi, hki⟩ := hpre (i + 1) (by omega)
        exact ⟨hsi, bi, by rw [show k + 1 + i = k + (i + 1) by omega]; exact hki⟩)
      h2 j (by rw [show k + 1 + n = k + (n + 1) by omega]; exact hj)
    rw [hrec]
    simp [List.range'_succ]
    omega

/-- Python `d[k] = v` on a dict not containing `k` appends the binding. -/
lemma dictInsert_fresh (d : List (String × Json)) (k : String) (v : Json)
    (h : d.any (fun p => p.1 == k) = false) :
    dictInsert d k v = d ++ [(k, v)] := by
  simp [dictInsert, h]

/-- Python `d.update(kvs)` for keys disjoint from `d` (and no duplicates
among themselves) appends the new bindings in order. -/
lemma dictUpdate_disjoint :
    ∀ (kvs d : List (String × Json)),
      (∀ p ∈ kvs, ∀ q ∈ d, q.1 ≠ p.1) →
      (kvs.map Prod.fst).Nodup →
      dictUpdate d kvs = d ++ kvs := by
  intro kvs
  induction kvs with
  | nil => intro d _ _; simp [dictUpdate]
  | cons p rest ih =>
    intro d hdisj hnd
    have hfresh : d.any (fun q => q.1 == p.1) = false := by
      rw [List.any_eq_false]
      intro q hq
      simpa using hdisj p (by simp) q hq
    have hstep : dictUpdate d (p :: rest) = dictUpdate (d ++ [p]) rest := by
      simp [dictUpdate, dictInsert_fresh d p.1 p.2 hfresh]
    have hnd2 : p.1 ∉ rest.map Prod.fst ∧ (rest.map Prod.fst).Nodup := by
      rw [List.map_cons, List.nodup_cons] at hnd
      exact hnd
    rw [hstep, ih (d ++ [p]) ?_ hnd2.2]
    · simp
    · intro p2 hp2 q hq
      rcases List.mem_append.mp hq with hq | hq
      · exact hdisj p2 (by simp [hp2]) q hq
      · have hqp : q = p := by simpa using hq
        rw [hqp]
        intro heq
        refine hnd2.1 ?_
        rw [heq]
        exact List.mem_map_of_mem Prod.fst hp2

/-- Explicit shape of the pre-`update` request body. -/
lemma requiredBody_eq (model : String) (messages : Json) (max_tokens : Option Int)
    (temperature : Option Rat) (stream : Bool) :
    requiredBody model messages max_tokens temperature stream
      = [("model", Json.str model), ("messages", messages), ("stream", Json.bool stream)]
        ++ (match max_tokens with
            | some n => [("max_tokens", Json.num (n : Rat))]
            | none => [])
        ++ (match temperature with
            | some t => [("temperature", Json.num t)]
            | none => []) := by
  cases max_tokens <;> cases temperature <;>
    simp [requiredBody, createBody, dictUpdate, dictInsert]

/-- The pre-`update` request body only binds the five parameter names
of `ChatCompletions.create`. -/
lemma requiredBody_keys (model : String) (messages : Json) (max_tokens : Option Int)
    (temperature : Option Rat) (stream : Bool) :
    ∀ q ∈ requiredBody model messages max_tokens temperature stream,
      q.1 = "model" ∨ q.1 = "messages" ∨ q.1 = "stream" ∨
      q.1 = "max_tokens" ∨ q.1 = "temperature" := by
  intro q hq
  rw [requiredBody_eq] at hq
  cases max_tokens <;> cases temperature <;> simp at hq <;>
    first
    | (rcases hq with rfl | rfl | rfl <;> simp)
    | (rcases hq with rfl | rfl | rfl | rfl <;> simp)
    | (rcases hq with rfl | rfl | rfl | rfl | rfl <;> simp)

/-- A successful `[f x for x in xs]` has one element per input. -/
lemma mapE_ok_length {α β : Type} (f : α → Except PyError β) :
    ∀ (xs : List α) (bs : List β), mapE f xs = .ok bs → bs.length = xs.length := by
  intro xs
  induction xs with
  | nil =>
    intro bs h
    simp [mapE] at h
    subst h
    rfl
  | cons a as ih =>
    intro bs h
    cases hfa : f a with
    | error e => simp only [mapE, hfa] at h; exact absurd h (by simp)
    | ok b =>
      cases hrec : mapE f as with
      | error e => simp only [mapE, hfa, hrec] at h; exact absurd h (by simp)
      | ok bs2 =>
        simp only [mapE, hfa, hrec, Except.ok.injEq] at h
        rw [← h]
        simp [ih bs2 hrec]

/-- A successful `[f x for x in xs]` is `f` applied positionally. -/
lemma mapE_ok_get {α β : Type} (f : α → Except PyError β) :
    ∀ (xs : List α) (bs : List β), mapE f xs = .ok bs →
      ∀ (i : Nat) (hi : i < xs.length) (hb : i < bs.length),
        f (xs.get ⟨i, hi⟩) = .ok (bs.get ⟨i, hb⟩) := by
  intro xs
  induction xs with
  | nil => intro bs h i hi hb; simp at hi
  | cons a as ih =>
    intro bs h i hi hb
    cases hfa : f a with
    | error e => simp only [mapE, hfa] at h; exact absurd h (by simp)
    | ok b =>
      cases hrec : mapE f as with
      | error e => simp only [mapE, hfa, hrec] at h; exact absurd h (by simp)
      | ok bs2 =>
        simp only [mapE, hfa, hrec, Except.ok.injEq] at h
        subst h
        cases i with
        | zero => simpa using hfa
        | succ n => simpa using ih bs2 hrec n (by simpa using hi) (by simpa using hb)

/-- C1: the claim says `ChatCompletions.create` decodes the 200 JSON
body into a `ChatCompletion` record with one `Choice` per entry of
`choices`.  The code instead returns the dispatcher's parsed JSON
unchanged (`return self.client._request(...)`), despite its own
`-> ChatCompletion` annotation and docstring: evaluated at the spec's
own scenario body, the result is the raw `Json` value `scenario200`,
and no `ChatCompletion`/`Choice` value is ever constructed. -/
theorem create_returns_raw_json :
    chatCompletionsCreate cfg0
      (Json.arr [Json.obj [("role", Json.str "user"), ("content", Json.str "Hello")]])
      "auto-select" none none false []
      (fun _ => .resp ⟨200, [], some scenario200⟩)
      = ⟨.ok scenario200, 1, []⟩ := rfl

/-- C2: the body assembled by `ChatCompletions.create` is the required
fields followed by the extra keyword arguments, and looking up any
required field in the final body still yields its required value.  The
hypotheses (kwargs keys distinct and different from the five declared
parameter names) hold for every Python call: a keyword argument named
like a declared parameter binds to that parameter (or raises a
`TypeError` at the call site) and never reaches `**kwargs`, and
`**kwargs` is a dict, so its keys are unique. -/
theorem create_body_merge (model : String) (messages : Json)
    (max_tokens : Option Int) (temperature : Option Rat) (stream : Bool)
    (kwargs : List (String × Json))
    (hdisj : ∀ p ∈ kwargs, p.1 ≠ "model" ∧ p.1 ≠ "messages" ∧ p.1 ≠ "stream" ∧
        p.1 ≠ "max_tokens" ∧ p.1 ≠ "temperature")
    (hnodup : (kwargs.map Prod.fst).Nodup) :
    createBody model messages max_tokens temperature stream kwargs
      = requiredBody model messages max_tokens temperature stream ++ kwargs
    ∧ (∀ k v,
        dictGet? (requiredBody model messages max_tokens temperature stream) k
          = some v →
        dictGet? (createBody model messages max_tokens temperature stream kwargs) k
          = some v) := by
  have hmain : createBody model messages max_tokens temperature stream kwargs
      = requiredBody model messages max_tokens temperature stream ++ kwargs := by
    have hcb : createBody model messages max_tokens temperature stream kwargs
        = dictUpdate (requiredBody model messages max_tokens temperature stream)
            kwargs := rfl
    rw [hcb]
    refine dictUpdate_disjoint kwargs _ ?_ hnodup
    intro p hp q hq
    obtain ⟨h1, h2, h3, h4, h5⟩ := hdisj p hp
    rcases requiredBody_keys model messages max_tokens temperature stream q hq with
      h | h | h | h | h <;> rw [h] <;> intro heq <;> simp_all
  refine ⟨hmain, ?_⟩
  intro k v hv
  rw [hmain]
  unfold dictGet? at hv ⊢
  rcases hfind : (requiredBody model messages max_tokens temperature stream).find?
      (fun p => p.1 == k) with _ | q
  · rw [hfind] at hv; exact absurd hv (by simp)
  · rw [List.find?_append, hfind]
    rw [hfind] at hv
    simpa using hv

/-- C2 witness: a concrete call with one passthrough option. -/
theorem create_body_merge_witness :
    ((∀ p ∈ ([("top_p", Json.num 1)] : List (String × Json)),
        p.1 ≠ "model" ∧ p.1 ≠ "messages" ∧ p.1 ≠ "stream" ∧
        p.1 ≠ "max_tokens" ∧ p.1 ≠ "temperature")
      ∧ (([("top_p", Json.num 1)] : List (String × Json)).map Prod.fst).Nodup)
    ∧ (createBody "auto-select" (Json.arr []) (some 100) none false
          [("top_p", Json.num 1)]
        = requiredBody "auto-select" (Json.arr []) (some 100) none false
            ++ [("top_p", Json.num 1)]
      ∧ (∀ k v,
          dictGet? (requiredBody "auto-select" (Json.arr []) (some 100) none false) k
            = some v →
          dictGet? (createBody "auto-select" (Json.arr []) (some 100) none false
              [("top_p", Json.num 1)]) k
            = some v)) :=
  ⟨⟨by decide, by decide⟩,
   create_body_merge "auto-select" (Json.arr []) (some 100) none false
     [("top_p", Json.num 1)] (by decide) (by decide)⟩

/-- C3: against a transport answering status s (500 ≤ s ≤ 599) on every
attempt, `_request` performs exactly `max_retries + 1` attempts, sleeps
`retry_delay * 2 ^ k` between attempts k and k+1 for k = 0 ..
max_retries − 1, and raises `DandoloError("Server error: s")`; if the
transport instead answers 200 on some attempt m within the budget, the
parsed 200 payload is returned after m back-off sleeps. -/
theorem request_5xx_retry_policy (cfg : Config) (method endpoint : String)
    (data : Option (List (String × Json))) (s : Nat)
    (hdrs : Nat → List (String × String)) (bodies : Nat → Option Json)
    (hm : pyUpper method = "GET" ∨ pyUpper method = "POST")
    (h5 : 500 ≤ s) (h599 : s ≤ 599) :
    (dandoloRequest cfg method endpoint data (fun i => .resp ⟨s, hdrs i, bodies i⟩)
        = ⟨.error (.dandoloError (.base ("Server error: " ++ toString s) none)),
           cfg.max_retries + 1,
           (List.range cfg.max_retries).map (fun k => cfg.retry_delay * 2 ^ k)⟩)
    ∧ (∀ (m : Nat) (h2 : List (String × String)) (j : Json), m ≤ cfg.max_retries →
        dandoloRequest cfg method endpoint data
          (fun i => if i < m then .resp ⟨s, hdrs i, bodies i⟩
                    else .resp ⟨200, h2, some j⟩)
          = ⟨.ok j, m + 1, (List.range m).map (fun k => cfg.retry_delay * 2 ^ k)⟩) := by
  constructor
  · have h := requestGo_5xx_all cfg method endpoint s hdrs bodies hm h5
      cfg.max_retries 0 []
    simp only [dandoloRequest]
    rw [h, List.range_eq_range']
    simp
  · intro m h2 j hmle
    have h := requestGo_200_after cfg method endpoint
        (fun i => if i < m then Attempt.resp ⟨s, hdrs i, bodies i⟩
                  else Attempt.resp ⟨200, h2, some j⟩)
        s hm h5 m (cfg.max_retries + 1) 0 [] (by omega)
        (fun i hi => ⟨hdrs i, bodies i, by simp [hi]⟩)
        h2 j (by simp)
    simp only [dandoloRequest]
    rw [h, List.range_eq_range']
    simp

/-- C3 witness: 503 on every attempt makes 4 attempts with sleeps
1, 2, 4; 503 twice then 200 returns the payload after sleeps 1, 2. -/
theorem request_5xx_retry_policy_witness :
    ((pyUpper "GET" = "GET" ∨ pyUpper "GET" = "POST")
      ∧ 500 ≤ 503 ∧ 503 ≤ 599 ∧ 2 ≤ cfg0.max_retries)
    ∧ dandoloRequest cfg0 "GET" "/v1/models" none (fun _ => .resp ⟨503, [], none⟩)
        = ⟨.error (.dandoloError (.base ("Server error: " ++ toString 503) none)),
           4, [1, 2, 4]⟩
    ∧ dandoloRequest cfg0 "GET" "/v1/models" none
        (fun i => if i < 2 then .resp ⟨503, [], none⟩
                  else .resp ⟨200, [], some (Json.str "pong")⟩)
        = ⟨.ok (Json.str "pong"), 3, [1, 2]⟩ := by
  refine ⟨⟨by decide, by decide, by decide, by decide⟩, ?_, ?_⟩
  · have h := (request_5xx_retry_policy cfg0 "GET" "/v1/models" none 503
      (fun _ => []) (fun _ => none) (by decide) (by decide) (by decide)).1
    refine h.trans ?_
    norm_num [cfg0, List.range_succ]
  · have h := (request_5xx_retry_policy cfg0 "GET" "/v1/models" none 503
      (fun _ => []) (fun _ => none) (by decide) (by decide) (by decide)).2
      2 [] (Json.str "pong") (by decide)
    refine h.trans ?_
    norm_num [cfg0, List.range_succ]

/-- C4 (amended): a `_request` with a method other than GET/POST
(case-insensitively) raises immediately on the first attempt, with no
transport attempt, no retry and no sleep — but the exception is the
built-in `ValueError("Unsupported HTTP method: ...")`, which is NOT an
instance of the taxonomy's base `DandoloError` and carries no
machine-readable code string. -/
theorem request_unsupported_method (cfg : Config) (method endpoint : String)
    (data : Option (List (String × Json))) (script : Nat → Attempt)
    (hm : ¬ (pyUpper method = "GET" ∨ pyUpper method = "POST")) :
    dandoloRequest cfg method endpoint data script
      = ⟨.error (.valueError ("Unsupported HTTP method: " ++ method)), 0, []⟩
    ∧ PyError.isDandoloError (.valueError ("Unsupported HTTP method: " ++ method))
        = false := by
  constructor
  · simp [dandoloRequest, requestGo, hm]
  · rfl

/-- C4 counterexample: with method "PUT" the raised exception is a
`ValueError`, not an instance of the taxonomy's base error type, so the
claim's "instance of the one base error type" part is false. -/
theorem request_unsupported_method_counterexample :
    (dandoloRequest cfg0 "PUT" "/v1/models" none (fun _ => Attempt.timeout)).result
      = .error (.valueError "Unsupported HTTP method: PUT")
    ∧ PyError.isDandoloError (.valueError "Unsupported HTTP method: PUT") = false :=
  ⟨rfl, rfl⟩

/-- C4 witness: the amended theorem at method "PUT". -/
theorem request_unsupported_method_witness :
    (¬ (pyUpper "PUT" = "GET" ∨ pyUpper "PUT" = "POST"))
    ∧ (dandoloRequest cfg0 "PUT" "/v1/models" none (fun _ => Attempt.timeout)
        = ⟨.error (.valueError ("Unsupported HTTP method: " ++ "PUT")), 0, []⟩
       ∧ PyError.isDandoloError (.valueError ("Unsupported HTTP method: " ++ "PUT"))
          = false) :=
  ⟨by decide, request_unsupported_method cfg0 "PUT" "/v1/models" none _ (by decide)⟩

/-- C5: a 429 response makes exactly one attempt, no sleep, and raises
`RateLimitError` whose retry-after field is the `Retry-After` header's
value when present and `None` when absent. -/
theorem request_429_rate_limit (cfg : Config) (method endpoint : String)
    (data : Option (List (String × Json)))
    (headers : List (String × String)) (body : Option Json)
    (hm : pyUpper method = "GET" ∨ pyUpper method = "POST") :
    dandoloRequest cfg method endpoint data (fun _ => .resp ⟨429, headers, body⟩)
      = ⟨.error (.dandoloError (.rateLimit (errorMessage body "Rate limit exceeded")
          (headersGet? headers "Retry-After"))), 1, []⟩
    ∧ (∀ v, headersGet? headers "Retry-After" = some v →
        dandoloRequest cfg method endpoint data (fun _ => .resp ⟨429, headers, body⟩)
          = ⟨.error (.dandoloError (.rateLimit (errorMessage body "Rate limit exceeded")
              (some v))), 1, []⟩)
    ∧ (headersGet? headers "Retry-After" = none →
        dandoloRequest cfg method endpoint data (fun _ => .resp ⟨429, headers, body⟩)
          = ⟨.error (.dandoloError (.rateLimit (errorMessage body "Rate limit exceeded")
              none)), 1, []⟩) := by
  have h : dandoloRequest cfg method endpoint data (fun _ => .resp ⟨429, headers, body⟩)
      = ⟨.error (.dandoloError (.rateLimit (errorMessage body "Rate limit exceeded")
          (headersGet? headers "Retry-After"))), 1, []⟩ := by
    simp [dandoloRequest, requestGo, hm]
  exact ⟨h, fun v hv => by rw [h, hv], fun hv => by rw [h, hv]⟩

/-- C5 witness: a 429 with a `Retry-After: 30` header. -/
theorem request_429_rate_limit_witness :
    (pyUpper "POST" = "GET" ∨ pyUpper "POST" = "POST")
    ∧ dandoloRequest cfg0 "POST" "/v1/chat/completions" none
        (fun _ => .resp ⟨429, [("Retry-After", "30")], none⟩)
      = ⟨.error (.dandoloError (.rateLimit "Rate limit exceeded" (some "30"))), 1, []⟩ :=
  ⟨by decide,
   (request_429_rate_limit cfg0 "POST" "/v1/chat/completions" none
      [("Retry-After", "30")] none (by decide)).1⟩

/-- C6: a 404 raises `ModelNotFoundError` when the endpoint path
contains the substring "model", else the generic `DandoloError`, in
both cases after exactly one attempt with no sleep. -/
theorem request_404_model_routing (cfg : Config) (method endpoint : String)
    (data : Option (List (String × Json)))
    (headers : List (String × String)) (body : Option Json)
    (hm : pyUpper method = "GET" ∨ pyUpper method = "POST") :
    (containsSubstr endpoint "model" = true →
      dandoloRequest cfg method endpoint data (fun _ => .resp ⟨404, headers, body⟩)
        = ⟨.error (.dandoloError (.modelNotFound "Specified model not found")), 1, []⟩)
    ∧ (containsSubstr endpoint "model" = false →
      dandoloRequest cfg method endpoint data (fun _ => .resp ⟨404, headers, body⟩)
        = ⟨.error (.dandoloError (.base ("Endpoint not found: " ++ endpoint) none)),
           1, []⟩) := by
  constructor <;> intro hc <;> simp [dandoloRequest, requestGo, hm, hc]

/-- C6 witness: "/v1/models" contains "model";
"/v1/chat/completions" does not. -/
theorem request_404_model_routing_witness :
    (pyUpper "GET" = "GET" ∨ pyUpper "GET" = "POST")
    ∧ containsSubstr "/v1/models" "model" = true
    ∧ dandoloRequest cfg0 "GET" "/v1/models" none (fun _ => .resp ⟨404, [], none⟩)
        = ⟨.error (.dandoloError (.modelNotFound "Specified model not found")), 1, []⟩
    ∧ containsSubstr "/v1/chat/completions" "model" = false
    ∧ dandoloRequest cfg0 "GET" "/v1/chat/completions" none (fun _ => .resp ⟨404, [], none⟩)
        = ⟨.error (.dandoloError (.base ("Endpoint not found: " ++ "/v1/chat/completions")
            none)), 1, []⟩ :=
  ⟨by decide, by decide,
   (request_404_model_routing cfg0 "GET" "/v1/models" none [] none (by decide)).1
     (by decide),
   by decide,
   (request_404_model_routing cfg0 "GET" "/v1/chat/completions" none [] none
      (by decide)).2 (by decide)⟩

/-- C7: a 400 makes one attempt and raises `ValidationError` whose
message is `error.message` from the body; when the body is absent, or
the "error" or "message" field is missing, the fixed default
"Invalid request" is used instead of failing differently. -/
theorem request_400_validation (cfg : Config) (method endpoint : String)
    (data : Option (List (String × Json))) (headers : List (String × String))
    (hm : pyUpper method = "GET" ∨ pyUpper method = "POST") :
    (∀ body, dandoloRequest cfg method endpoint data (fun _ => .resp ⟨400, headers, body⟩)
      = ⟨.error (.dandoloError (.validation (errorMessage body "Invalid request"))), 1, []⟩)
    ∧ (∀ fields efields s,
        dictGet? fields "error" = some (Json.obj efields) →
        dictGet? efields "message" = some (Json.str s) →
        errorMessage (some (Json.obj fields)) "Invalid request" = s)
    ∧ errorMessage none "Invalid request" = "Invalid request"
    ∧ (∀ fields, dictGet? fields "error" = none →
        errorMessage (some (Json.obj fields)) "Invalid request" = "Invalid request")
    ∧ (∀ fields efields, dictGet? fields "error" = some (Json.obj efields) →
        dictGet? efields "message" = none →
        errorMessage (some (Json.obj fields)) "Invalid request" = "Invalid request") := by
  refine ⟨?_, ?_, rfl, ?_, ?_⟩
  · intro body; simp [dandoloRequest, requestGo, hm]
  · intro fields efields s h1 h2; simp [errorMessage, h1, h2]
  · intro fields h1; simp [errorMessage, h1]
  · intro fields efields h1 h2; simp [errorMessage, h1, h2]

/-- C7 witness: a 400 with a server message, and a 400 with an empty
body. -/
theorem request_400_validation_witness :
    (pyUpper "POST" = "GET" ∨ pyUpper "POST" = "POST")
    ∧ dandoloRequest cfg0 "POST" "/v1/chat/completions" none
        (fun _ => .resp ⟨400, [],
          some (Json.obj [("error", Json.obj [("message", Json.str "bad temperature")])])⟩)
      = ⟨.error (.dandoloError (.validation "bad temperature")), 1, []⟩
    ∧ dandoloRequest cfg0 "POST" "/v1/chat/completions" none
        (fun _ => .resp ⟨400, [], none⟩)
      = ⟨.error (.dandoloError (.validation "Invalid request")), 1, []⟩ :=
  ⟨by decide,
   (request_400_validation cfg0 "POST" "/v1/chat/completions" none [] (by decide)).1
     (some (Json.obj [("error", Json.obj [("message", Json.str "bad temperature")])])),
   (request_400_validation cfg0 "POST" "/v1/chat/completions" none [] (by decide)).1 none⟩

/-- C8: constructing the client with a key that starts with neither
"dk_" nor "ak_" — including a missing or empty key — raises a
`ValueError` (and, the construction being a pure function of its
arguments in this model, performs no network call); a key with either
prefix constructs the configuration, likewise without any transport
interaction. -/
theorem init_key_gate (api_key : Option String) (base_url : String)
    (timeout max_retries : Nat) (retry_delay : Rat) :
    ((∀ k, api_key = some k →
        pyStartsWith k "dk_" = false ∧ pyStartsWith k "ak_" = false) →
      ∃ msg, dandoloInit api_key base_url timeout max_retries retry_delay
        = .error (.valueError msg))
    ∧ (∀ k, api_key = some k →
        (pyStartsWith k "dk_" = true ∨ pyStartsWith k "ak_" = true) →
        dandoloInit api_key base_url timeout max_retries retry_delay
          = .ok ⟨k, rstripSlashes base_url, timeout, max_retries, retry_delay⟩) := by
  constructor
  · intro hbad
    cases api_key with
    | none => exact ⟨"API key is required", rfl⟩
    | some k =>
      by_cases hk : k = ""
      · subst hk; exact ⟨"API key is required", rfl⟩
      · obtain ⟨h1, h2⟩ := hbad k rfl
        refine ⟨"API key must start with 'dk_' (developer) or 'ak_' (agent)", ?_⟩
        simp [dandoloInit, hk, h1, h2]
  · intro k hk hpre
    subst hk
    have hkne : ¬ k = "" := by
      intro h0
      subst h0
      rcases hpre with h | h <;> exact absurd h (by decide)
    have hor : (pyStartsWith k "dk_" || pyStartsWith k "ak_") = true := by
      rcases hpre with h | h <;> simp [h]
    simp [dandoloInit, hkne, hor]

/-- C8 witness: "sk-wrong" is rejected; "ak_demo" passes with the base
URL's trailing slash stripped. -/
theorem init_key_gate_witness :
    (∃ msg, dandoloInit (some "sk-wrong") "https://api.dandolo.ai" 60 3 1
        = .error (.valueError msg))
    ∧ dandoloInit (some "ak_demo") "https://api.dandolo.ai/" 60 3 1
        = .ok ⟨"ak_demo", rstripSlashes "https://api.dandolo.ai/", 60, 3, 1⟩ :=
  ⟨(init_key_gate (some "sk-wrong") "https://api.dandolo.ai" 60 3 1).1
     (by intro k hk; cases hk; exact ⟨by decide, by decide⟩),
   (init_key_gate (some "ak_demo") "https://api.dandolo.ai/" 60 3 1).2 "ak_demo" rfl
     (Or.inr (by decide))⟩

/-- C9: when the model-list probe succeeds, `validate_key` reports
valid with class "agent" exactly when the configured key starts with
"ak_" and "developer" otherwise (a function of the key prefix alone,
identical for every successful server reply); when the probe raises any
`DandoloError`, every report field other than `is_valid = False` is
`None`. -/
theorem validate_key_report (cfg : Config) (script : Nat → Attempt) :
    (∀ j, (dandoloRequest cfg "GET" "/v1/models" none script).result = .ok j →
      validate_key cfg script = .ok
        ⟨true,
         some (if pyStartsWith cfg.api_key "ak_" then "agent" else "developer"),
         some 0,
         some (if pyStartsWith cfg.api_key "ak_" then 5000 else 500),
         some (if pyStartsWith cfg.api_key "ak_" then 5000 else 500)⟩)
    ∧ (∀ e, (dandoloRequest cfg "GET" "/v1/models" none script).result
          = .error (.dandoloError e) →
        validate_key cfg script = .ok ⟨false, none, none, none, none⟩) := by
  constructor
  · intro j hj
    simp only [validate_key, hj]
    by_cases hp : pyStartsWith cfg.api_key "ak_" <;> simp [hp]
  · intro e he
    simp only [validate_key, he]

/-- C9 witness: a 200 probe yields the agent report for cfg0's "ak_"
key; a 401 probe (an `AuthenticationError`, a `DandoloError`) yields
the all-null invalid report. -/
theorem validate_key_report_witness :
    ((dandoloRequest cfg0 "GET" "/v1/models" none
        (fun _ => .resp ⟨200, [], some (Json.obj [])⟩)).result = .ok (Json.obj []))
    ∧ validate_key cfg0 (fun _ => .resp ⟨200, [], some (Json.obj [])⟩)
        = .ok ⟨true, some "agent", some 0, some 5000, some 5000⟩
    ∧ ((dandoloRequest cfg0 "GET" "/v1/models" none
        (fun _ => .resp ⟨401, [], none⟩)).result
          = .error (.dandoloError (.authentication "Invalid API key")))
    ∧ validate_key cfg0 (fun _ => .resp ⟨401, [], none⟩)
        = .ok ⟨false, none, none, none, none⟩ :=
  ⟨rfl,
   (validate_key_report cfg0 (fun _ => .resp ⟨200, [], some (Json.obj [])⟩)).1
     (Json.obj []) rfl,
   rfl,
   (validate_key_report cfg0 (fun _ => .resp ⟨401, [], none⟩)).2
     (.authentication "Invalid API key") rfl⟩

/-- C10: on a decoded 200 reply to the model-listing GET, a missing
"data" key yields the empty list without raising; a "data" list yields
one `Model` record per element in the same order, each built by
`Model(**element)` from that element's fields. -/
theorem models_list_decodes (cfg : Config) (now : Int) (script : Nat → Attempt)
    (fields : List (String × Json))
    (hresp : (dandoloRequest cfg "GET" "/v1/models" none script).result
        = .ok (Json.obj fields)) :
    (dictGet? fields "data" = none → modelsList cfg now script = .ok [])
    ∧ (∀ elems, dictGet? fields "data" = some (Json.arr elems) →
        modelsList cfg now script = mapE (modelOfJson now) elems
        ∧ ∀ ms, mapE (modelOfJson now) elems = .ok ms →
            ms.length = elems.length
            ∧ ∀ (i : Nat) (hi : i < elems.length) (hmi : i < ms.length),
                modelOfJson now (elems.get ⟨i, hi⟩) = .ok (ms.get ⟨i, hmi⟩)) := by
  constructor
  · intro hdata
    simp [modelsList, hresp, hdata, mapE]
  · intro elems hdata
    constructor
    · simp [modelsList, hresp, hdata]
    · intro ms hms
      exact ⟨mapE_ok_length _ elems ms hms,
        fun i hi hmi => mapE_ok_get _ elems ms hms i hi hmi⟩

/-- C10 witness: a two-element listing decodes to two `Model` records
in order, with defaults filled for the missing fields. -/
theorem models_list_decodes_witness :
    ((dandoloRequest cfg0 "GET" "/v1/models" none
        (fun _ => .resp ⟨200, [], some (Json.obj modelsFields)⟩)).result
      = .ok (Json.obj modelsFields))
    ∧ modelsList cfg0 1700000000
        (fun _ => .resp ⟨200, [], some (Json.obj modelsFields)⟩)
      = .ok
        [⟨Json.str "llama-70b", Json.str "model", Json.num ((1700000000 : Int) : Rat),
          Json.str "dandolo", Json.null, Json.null⟩,
         ⟨Json.str "qwen-72b", Json.str "model", Json.num ((1700000000 : Int) : Rat),
          Json.str "dandolo", Json.null, Json.num 32768⟩] := by
  constructor
  · rfl
  · have h := ((models_list_decodes cfg0 1700000000
        (fun _ => .resp ⟨200, [], some (Json.obj modelsFields)⟩) modelsFields rfl).2
        [Json.obj [("id", Json.str "llama-70b")],
         Json.obj [("id", Json.str "qwen-72b"), ("context_length", Json.num 32768)]]
        rfl).1
    rw [h]
    rfl
